import Mathlib

/-
Verification development for the boon-employee-portal repository.

The repository's decision logic lives in Supabase edge functions
(nudge-scheduler, slack-interactions, slack-oauth), the portal data
fetcher (src/lib/dataFetcher.ts) and the native-surveys SQL migration
(get_pending_survey / pending_surveys).  This file gives a shallow
embedding of that logic: JavaScript strings are Lean `String`s
manipulated through executable char-list primitives (the core `String`
functions of this toolchain do not reduce in the kernel), database
tables are lists of structures, and external collaborators (the Slack
API, the `Intl` timezone resolver, the HMAC primitive, the wall clock)
are explicit parameters.
-/

namespace Boon

/-! ## JavaScript string primitives

Executable models of the string operations the TypeScript sources use:
`toLowerCase`, `toUpperCase`, `split`, `parseInt`, truthiness of
strings and nullable values.  All are structural recursions over
`List Char` so that concrete runs reduce under `decide`. -/

/-- ASCII lower-casing of one character, as `String.prototype.toLowerCase`
acts on the ASCII range (all emails and enum values in this repository
are ASCII). -/
def lowerChar (c : Char) : Char :=
  if 'A' ≤ c ∧ c ≤ 'Z' then Char.ofNat (c.toNat + 32) else c

/-- ASCII upper-casing of one character (`String.prototype.toUpperCase`). -/
def upperChar (c : Char) : Char :=
  if 'a' ≤ c ∧ c ≤ 'z' then Char.ofNat (c.toNat - 32) else c

/-- Model of `s.toLowerCase()`. -/
def strLower (s : String) : String := ⟨s.data.map lowerChar⟩

/-- Model of `s.toUpperCase()`. -/
def strUpper (s : String) : String := ⟨s.data.map upperChar⟩

/-- Case-insensitive string equality: models both SQL
`lower(a) = lower(b)` and PostgREST `ilike` on wildcard-free emails. -/
def ciEq (a b : String) : Bool := strLower a == strLower b

/-- Decimal digit test, as in `parseInt`. -/
def isDigitChar (c : Char) : Bool := decide ('0' ≤ c ∧ c ≤ '9')

/-- Accumulate a digit list into a natural number. -/
def digitsToNat : List Char → Nat → Nat
  | [], acc => acc
  | c :: l, acc => digitsToNat l (acc * 10 + (c.toNat - 48))

/-- Model of JavaScript `parseInt(s, 10)`: an optional sign followed by
the longest digit prefix; `none` models the `NaN` result. -/
def parseIntJS (l : List Char) : Option Int :=
  match l with
  | '-' :: rest =>
    let ds := rest.takeWhile isDigitChar
    if ds.isEmpty then none else some (-(digitsToNat ds 0 : Int))
  | _ =>
    let ds := l.takeWhile isDigitChar
    if ds.isEmpty then none else some ((digitsToNat ds 0 : Int))

/-- Model of JavaScript `String.prototype.split` with a one-character
separator: `jsSplit sep l` returns the chunks of `l` between
occurrences of `sep`; like in JS, the result is never empty and
`"".split(sep)` is `[""]`. -/
def jsSplit (sep : Char) : List Char → List (List Char)
  | [] => [[]]
  | c :: rest =>
    if c = sep then [] :: jsSplit sep rest
    else
      match jsSplit sep rest with
      | [] => [[c]]
      | chunk :: more => (c :: chunk) :: more

/-- Model of the JavaScript expression `a || b` on nullable strings:
`null`, `undefined` and the empty string are falsy. -/
def jsOrStr (a : Option String) (b : String) : String :=
  match a with
  | some s => if s = "" then b else s
  | none => b

/-- Model of `a || b` where both operands are nullable strings. -/
def jsOrOpt (a b : Option String) : Option String :=
  match a with
  | some s => if s = "" then b else some s
  | none => b

/-! ## Timing gate (`isAppropriateTime`, nudge-scheduler)

The scheduler computes the recipient-local hour with
`Intl.DateTimeFormat` (an external collaborator: here the `userTime`
parameter, `none` modelling the exception thrown for an unresolvable
IANA zone, `some s` the formatted hour string), parses both it and the
hour field of the preferred time with `parseInt`, and compares by
absolute difference.  A `NaN` on either side makes the JS comparison
`Math.abs(...) <= 1` evaluate to `false`. -/

/-- Shared `isAppropriateTime(preferredTime, timezone)` of the
nudge-scheduler: within one hour of the preferred hour-of-day, failing
open (`true`) when timezone resolution throws. -/
def isAppropriateTime (preferredTime : String) (userTime : Option String) : Bool :=
  match userTime with
  | none => true
  | some ut =>
    match parseIntJS ut.data, parseIntJS ((jsSplit ':' preferredTime.data).headD []) with
    | some currentHour, some preferredHour => decide ((currentHour - preferredHour).natAbs ≤ 1)
    | _, _ => false

/-- Self-contained `isAppropriateTime` variant of the dashboard
deployment: identical except that a missing or empty preferred time
falls back to the literal `'9'` before parsing. -/
def isAppropriateTimeSelf (preferredTime : Option String) (userTime : Option String) : Bool :=
  match userTime with
  | none => true
  | some ut =>
    let chunk : List Char :=
      match preferredTime with
      | none => ['9']
      | some s =>
        let c := (jsSplit ':' s.data).headD []
        if c.isEmpty then ['9'] else c
    match parseIntJS ut.data, parseIntJS chunk with
    | some currentHour, some preferredHour => decide ((currentHour - preferredHour).natAbs ≤ 1)
    | _, _ => false

/-- C5: the Dispatcher's timing gate sends only when the recipient-local
hour differs from the preferred hour-of-day by at most 1 (minutes are
not compared); with preferred time "14:00" the gate skips at local hour
16 and allows at local hour 15; if timezone resolution throws, the gate
allows the send (fail open). -/
theorem C5_timing_gate (pref : String) (p : Int)
    (hp : parseIntJS ((jsSplit ':' pref.data).headD []) = some p) :
    (∀ (ut : String) (h : Int), parseIntJS ut.data = some h →
        isAppropriateTime pref (some ut) = decide ((h - p).natAbs ≤ 1))
    ∧ isAppropriateTime pref none = true
    ∧ isAppropriateTime "14:00" (some "16") = false
    ∧ isAppropriateTime "14:00" (some "15") = true := by
  refine ⟨?_, rfl, by decide, by decide⟩
  intro ut h hut
  simp only [isAppropriateTime, hut, hp]

/-- Witness for C5 at preferred time "14:00" (preferred hour 14). -/
theorem C5_timing_gate_witness :
    isAppropriateTime "14:00" (some "16") = false
    ∧ isAppropriateTime "14:00" (some "15") = true
    ∧ isAppropriateTime "14:00" none = true :=
  ⟨(C5_timing_gate "14:00" 14 (by decide)).2.2.1,
   (C5_timing_gate "14:00" 14 (by decide)).2.2.2,
   (C5_timing_gate "14:00" 14 (by decide)).2.1⟩

/-- Helper: two strings with equal char data are equal. -/
theorem strEqOfData {a b : String} (h : a.data = b.data) : a = b := by
  cases a; cases b; exact congrArg String.mk h

/-- Helper: char data of a string concatenation. -/
theorem strDataAppend (a b : String) : (a ++ b).data = a.data ++ b.data := by
  cases a; cases b; rfl

/-- C9: the timing gate compares hours by absolute arithmetic
difference with no wrap-around at midnight: with preferred time "23:00"
and recipient-local hour 0, the difference is computed as 23, which
exceeds 1, so the candidate is skipped (in both scheduler variants). -/
theorem C9_no_midnight_wraparound :
    isAppropriateTime "23:00" (some "0") = false
    ∧ isAppropriateTimeSelf (some "23:00") (some "0") = false
    ∧ ((0 : Int) - 23).natAbs = 23 := by
  decide

/-! ## Template rendering (shared `renderTemplate` / `renderBlocks`, and
the self-contained `renderBlocks` of the dashboard nudge-scheduler)

The shared helper substitutes variables by scanning the serialized
template for `\x7b\x7b(\w+)\x7d\x7d` and replacing each match by the
variable's value, with `null`/`undefined`/absent values becoming the
empty string.  The self-contained variant instead iterates over the
entries of the variable map and globally replaces each entry's
placeholder, so a placeholder with no entry in the map is left as
literal text.  Both `renderBlocks` versions apply the substitution to
the JSON serialization of the block array; the substitution pass itself
is modelled here at the string level.  The scanners recurse on a fuel
argument (instantiated with the input length by their wrappers) so
that they are structural recursions the kernel can evaluate. -/

/-- The `\x7b` character (brace characters are kept out of literals). -/
def lbrace : Char := Char.ofNat 123

/-- The `\x7d` character. -/
def rbrace : Char := Char.ofNat 125

/-- Model of the regex class `\w`: ASCII letters, digits, underscore. -/
def wordChar (c : Char) : Bool := c.isAlphanum || c = '_'

/-- Lookup of `variables[key]` followed by the shared helper's
`value !== null && value !== undefined ? String(value) : ''`. -/
def lookupVal (vars : List (String × Option String)) (key : List Char) : String :=
  match vars.find? (fun kv => kv.1.data == key) with
  | some kv =>
    match kv.2 with
    | some v => v
    | none => ""
  | none => ""

/-- Match one `(\w+)\x7d\x7d` placeholder tail: the key (nonempty run of
word chars) and the remaining input after the closing braces. -/
def parsePlaceholder (l : List Char) : Option (List Char × List Char) :=
  let key := l.takeWhile wordChar
  if key = [] then none
  else
    match l.dropWhile wordChar with
    | c1 :: c2 :: r => if c1 = rbrace ∧ c2 = rbrace then some (key, r) else none
    | _ => none

/-- Helper: a successful placeholder parse consumes at least three
characters beyond the remainder. -/
theorem parsePlaceholder_some_length {l k r : List Char}
    (h : parsePlaceholder l = some (k, r)) : r.length + 3 ≤ l.length := by
  have hlen : (l.takeWhile wordChar).length + (l.dropWhile wordChar).length = l.length := by
    rw [← List.length_append, List.takeWhile_append_dropWhile]
  unfold parsePlaceholder at h
  by_cases hkey : l.takeWhile wordChar = []
  · simp [hkey] at h
  · have hkpos : 0 < (l.takeWhile wordChar).length := List.length_pos.mpr hkey
    rw [if_neg hkey] at h
    rcases hdrop : l.dropWhile wordChar with _ | ⟨c1, _ | ⟨c2, r0⟩⟩ <;> rw [hdrop] at h
    · simp at h
    · simp at h
    · have h' : (if c1 = rbrace ∧ c2 = rbrace then some (l.takeWhile wordChar, r0) else none)
          = some (k, r) := h
      by_cases hbr : c1 = rbrace ∧ c2 = rbrace
      · rw [if_pos hbr] at h'
        have hr : r0 = r := congrArg Prod.snd (Option.some.inj h')
        subst hr
        rw [hdrop] at hlen
        simp only [List.length_cons] at hlen
        omega
      · rw [if_neg hbr] at h'
        exact absurd h' (by simp)

/-- Scanner for the shared `renderTemplate` regex replacement, recursing
on fuel: at each `\x7b\x7b` try to match a word key and `\x7d\x7d`; on a
match emit the looked-up value, otherwise emit one character and
continue — as the regex engine resumes one position further on a failed
match. -/
def renderGo (vars : List (String × Option String)) : Nat → List Char → List Char
  | _, [] => []
  | 0, l => l
  | fuel + 1, c :: rest =>
    if c = lbrace then
      match rest with
      | [] => [c]
      | c2 :: rest2 =>
        if c2 = lbrace then
          match parsePlaceholder rest2 with
          | some kr => (lookupVal vars kr.1).data ++ renderGo vars fuel kr.2
          | none => c :: renderGo vars fuel (c2 :: rest2)
        else c :: renderGo vars fuel (c2 :: rest2)
    else c :: renderGo vars fuel rest

/-- Helper: one-step unfolding of the scanner on a nonempty input with
nonzero fuel. -/
theorem renderGo_succ_cons (vars : List (String × Option String)) (fuel : Nat)
    (c : Char) (rest : List Char) :
    renderGo vars (fuel + 1) (c :: rest) =
      if c = lbrace then
        match rest with
        | [] => [c]
        | c2 :: rest2 =>
          if c2 = lbrace then
            match parsePlaceholder rest2 with
            | some kr => (lookupVal vars kr.1).data ++ renderGo vars fuel kr.2
            | none => c :: renderGo vars fuel (c2 :: rest2)
          else c :: renderGo vars fuel (c2 :: rest2)
      else c :: renderGo vars fuel rest := rfl

/-- Model of the shared `renderTemplate(template, variables)` of
`_shared/slack.ts`: `template.replace(/\x7b\x7b(\w+)\x7d\x7d/g, (_, key)
=> value !== null && value !== undefined ? String(value) : '')`. -/
def renderTemplate (template : String) (vars : List (String × Option String)) : String :=
  ⟨renderGo vars template.data.length template.data⟩

/-- Helper: the scan result does not depend on the fuel, once the fuel
covers the input length. -/
theorem renderGo_congr (vars : List (String × Option String)) :
    ∀ (fuel fuel' : Nat) (l : List Char), l.length ≤ fuel → l.length ≤ fuel' →
      renderGo vars fuel l = renderGo vars fuel' l := by
  intro fuel
  induction fuel with
  | zero =>
    intro fuel' l hl hl'
    have : l = [] := List.eq_nil_of_length_eq_zero (Nat.le_zero.mp hl)
    subst this
    cases fuel' <;> rfl
  | succ f ih =>
    intro fuel' l hl hl'
    cases l with
    | nil => cases fuel' <;> rfl
    | cons c rest =>
      cases fuel' with
      | zero => exact absurd hl' (by simp)
      | succ f' =>
        have h1 : rest.length ≤ f := by
          simp only [List.length_cons] at hl
          omega
        have h1' : rest.length ≤ f' := by
          simp only [List.length_cons] at hl'
          omega
        show renderGo vars (f + 1) (c :: rest) = renderGo vars (f' + 1) (c :: rest)
        by_cases hc : c = lbrace
        · subst hc
          cases rest with
          | nil => simp [renderGo_succ_cons]
          | cons c2 rest2 =>
            by_cases hc2 : c2 = lbrace
            · subst hc2
              rcases hp : parsePlaceholder rest2 with _ | kr
              · simp [renderGo_succ_cons, hp, ih f' (lbrace :: rest2) h1 h1']
              · have hkr := parsePlaceholder_some_length hp
                have e : renderGo vars f kr.2 = renderGo vars f' kr.2 := by
                  refine ih f' kr.2 ?_ ?_
                  · simp only [List.length_cons] at h1
                    omega
                  · simp only [List.length_cons] at h1'
                    omega
                simp [renderGo_succ_cons, hp, e]
            · simp [renderGo_succ_cons, hc2, ih f' (c2 :: rest2) h1 h1']
        · simp [renderGo_succ_cons, hc, ih f' rest h1 h1']

/-- Scanner for the self-contained `renderBlocks` global literal
replacement, recursing on fuel: replace every leftmost occurrence of
`pat` by `rep`. -/
def replaceAllGo (pat rep : List Char) : Nat → List Char → List Char
  | _, [] => []
  | 0, l => l
  | fuel + 1, c :: rest =>
    if pat ≠ [] ∧ (c :: rest).take pat.length = pat then
      rep ++ replaceAllGo pat rep fuel ((c :: rest).drop pat.length)
    else
      c :: replaceAllGo pat rep fuel rest

/-- Replace every (non-overlapping, leftmost-first) occurrence of `pat`
by `rep`: the effect of `json.replace(new RegExp(escapedPat, 'g'), rep)`
for the literal placeholder patterns of the self-contained scheduler. -/
def replaceAllChars (pat rep l : List Char) : List Char :=
  replaceAllGo pat rep l.length l

/-- Model of `String(value ?? '')`. -/
def jsValStr (v : Option String) : String := v.getD ""

/-- The self-contained `renderBlocks` of the dashboard nudge-scheduler:
for each entry of the variable map, globally replace that entry's
literal `\x7b\x7bkey\x7d\x7d` pattern by `String(value ?? '')`. -/
def renderBlocksSelf (json : String) (vars : List (String × Option String)) : String :=
  vars.foldl
    (fun s kv =>
      ⟨replaceAllChars (lbrace :: lbrace :: kv.1.data ++ [rbrace, rbrace])
        (jsValStr kv.2).data s.data⟩)
    json

/-- A template token: a literal text chunk or a named placeholder. -/
inductive TemplateTok where
  | lit : String → TemplateTok
  | var : String → TemplateTok

/-- Serialize one token back to template text. -/
def tokStr : TemplateTok → String
  | .lit s => s
  | .var k => ⟨lbrace :: lbrace :: k.data ++ [rbrace, rbrace]⟩

/-- Serialize a token list to the template string it denotes. -/
def assemble (toks : List TemplateTok) : String :=
  toks.foldr (fun t acc => tokStr t ++ acc) ""

/-- The intended rendering of one token: literals unchanged, variables
replaced by their looked-up value (empty string when unresolved). -/
def renderedTok (vars : List (String × Option String)) : TemplateTok → String
  | .lit s => s
  | .var k => lookupVal vars k.data

/-- The intended rendering of a whole token list. -/
def renderAll (vars : List (String × Option String)) (toks : List TemplateTok) : String :=
  toks.foldr (fun t acc => renderedTok vars t ++ acc) ""

/-- Well-formedness of a token: literal chunks contain no opening
brace, placeholder keys are nonempty words. -/
def okTok : TemplateTok → Bool
  | .lit s => s.data.all (fun c => !decide (c = lbrace))
  | .var k => (!decide (k.data = [])) && k.data.all wordChar

/-- Helper: `takeWhile` walks through a fully satisfying prefix. -/
theorem takeWhile_append_of_all {α : Type} {p : α → Bool} :
    ∀ (l m : List α), (∀ c ∈ l, p c = true) →
      (l ++ m).takeWhile p = l ++ m.takeWhile p := by
  intro l m h
  induction l with
  | nil => simp
  | cons c t ih =>
    have hc := h c (List.mem_cons_self c t)
    simp [List.takeWhile_cons, hc, ih (fun x hx => h x (List.mem_cons_of_mem c hx))]

/-- Helper: `dropWhile` skips a fully satisfying prefix. -/
theorem dropWhile_append_of_all {α : Type} {p : α → Bool} :
    ∀ (l m : List α), (∀ c ∈ l, p c = true) →
      (l ++ m).dropWhile p = m.dropWhile p := by
  intro l m h
  induction l with
  | nil => simp
  | cons c t ih =>
    have hc := h c (List.mem_cons_self c t)
    simp [List.dropWhile_cons, hc, ih (fun x hx => h x (List.mem_cons_of_mem c hx))]

/-- Helper: the scan copies a character that is not an opening brace. -/
theorem renderTemplate_cons_ne (vars : List (String × Option String))
    {c : Char} (hc : ¬c = lbrace) (l : List Char) :
    renderGo vars (c :: l).length (c :: l) = c :: renderGo vars l.length l := by
  show renderGo vars (l.length + 1) (c :: l) = c :: renderGo vars l.length l
  rw [renderGo_succ_cons, if_neg hc]

/-- Helper: the scan copies any brace-free chunk verbatim. -/
theorem renderGo_lit (vars : List (String × Option String)) :
    ∀ (s rest : List Char), (∀ c ∈ s, ¬c = lbrace) →
      renderGo vars (s ++ rest).length (s ++ rest) = s ++ renderGo vars rest.length rest := by
  intro s rest h
  induction s with
  | nil => simp
  | cons c t ih =>
    have hc := h c (List.mem_cons_self c t)
    have ht := ih (fun x hx => h x (List.mem_cons_of_mem c hx))
    show renderGo vars ((t ++ rest).length + 1) (c :: (t ++ rest)) = _
    rw [renderGo_succ_cons, if_neg hc, ht]
    simp

/-- Helper: the scan substitutes one well-formed placeholder. -/
theorem renderGo_var (vars : List (String × Option String))
    {k : List Char} (hk : ¬k = []) (hw : ∀ c ∈ k, wordChar c = true) (rest : List Char) :
    renderGo vars (lbrace :: lbrace :: (k ++ rbrace :: rbrace :: rest)).length
        (lbrace :: lbrace :: (k ++ rbrace :: rbrace :: rest)) =
      (lookupVal vars k).data ++ renderGo vars rest.length rest := by
  have hwr : wordChar rbrace = false := by decide
  have hparse : parsePlaceholder (k ++ rbrace :: rbrace :: rest) = some (k, rest) := by
    unfold parsePlaceholder
    rw [takeWhile_append_of_all k (rbrace :: rbrace :: rest) hw,
      dropWhile_append_of_all k (rbrace :: rbrace :: rest) hw]
    simp [List.takeWhile_cons, List.dropWhile_cons, hwr, hk]
  show renderGo vars ((k ++ rbrace :: rbrace :: rest).length + 2)
      (lbrace :: lbrace :: (k ++ rbrace :: rbrace :: rest)) = _
  rw [renderGo_succ_cons]
  simp only [eq_self_iff_true, if_true, hparse]
  have hlen : rest.length ≤ (k ++ rbrace :: rbrace :: rest).length + 1 := by
    simp [List.length_append]
    omega
  rw [renderGo_congr vars _ rest.length rest hlen (Nat.le_refl _)]

/-- Helper: rendering an assembled well-formed token list yields the
concatenation of the rendered tokens, at the char level. -/
theorem renderGo_assemble (vars : List (String × Option String)) :
    ∀ toks : List TemplateTok, (∀ t ∈ toks, okTok t = true) →
      renderGo vars (assemble toks).data.length (assemble toks).data =
        (renderAll vars toks).data := by
  intro toks hok
  induction toks with
  | nil => rfl
  | cons t ts ih =>
    have hts : ∀ x ∈ ts, okTok x = true := fun x hx => hok x (List.mem_cons_of_mem t hx)
    have hass : (assemble (t :: ts)).data = (tokStr t).data ++ (assemble ts).data := by
      show ((tokStr t ++ assemble ts).data) = _
      exact strDataAppend _ _
    have hren : (renderAll vars (t :: ts)).data =
        (renderedTok vars t).data ++ (renderAll vars ts).data := by
      show ((renderedTok vars t ++ renderAll vars ts).data) = _
      exact strDataAppend _ _
    rw [hass, hren]
    cases t with
    | lit s =>
      have h0 := hok (.lit s) (List.mem_cons_self _ _)
      simp only [okTok, List.all_eq_true, Bool.not_eq_true', decide_eq_false_iff_not] at h0
      rw [show (tokStr (.lit s)).data = s.data from rfl, renderGo_lit vars s.data _ h0,
        ih hts]
      rfl
    | var k =>
      have h0 := hok (.var k) (List.mem_cons_self _ _)
      simp only [okTok, Bool.and_eq_true, Bool.not_eq_true', decide_eq_false_iff_not,
        List.all_eq_true] at h0
      have htok : (tokStr (.var k)).data ++ (assemble ts).data =
          lbrace :: lbrace :: (k.data ++ rbrace :: rbrace :: (assemble ts).data) := by
        show (lbrace :: lbrace :: k.data ++ [rbrace, rbrace]) ++ (assemble ts).data = _
        simp
      rw [htok, renderGo_var vars h0.1 h0.2, ih hts]
      rfl

/-- Demo token list used by the C7 witness. -/
def demoToks : List TemplateTok :=
  [.lit "Hi ", .var "first_name", .lit ", goal: ", .var "goals"]

/-- Demo variable map used by the C7 witness: `goals` has no entry and
`coach_name` carries an undefined value. -/
def demoVars : List (String × Option String) :=
  [("first_name", some "Ada"), ("coach_name", none)]

/-- C7 counterexample: the self-contained `renderBlocks` of the
dashboard nudge-scheduler leaves a placeholder with no entry in the
variable map as literal text, unlike the shared `renderTemplate`, which
renders it as the empty string — refuting the claim that every
unresolved variable renders as the empty string in every template
rendering path. -/
theorem C7_literal_placeholder_counterexample :
    renderBlocksSelf "Hi \x7b\x7bfirst_name\x7d\x7d, goal: \x7b\x7bgoals\x7d\x7d"
        [("first_name", some "Ada")] =
      "Hi Ada, goal: \x7b\x7bgoals\x7d\x7d"
    ∧ renderTemplate "Hi \x7b\x7bfirst_name\x7d\x7d, goal: \x7b\x7bgoals\x7d\x7d"
        [("first_name", some "Ada")] =
      "Hi Ada, goal: " := by
  constructor
  · apply strEqOfData
    decide
  · apply strEqOfData
    decide

/-- C7 (amended): the shared `renderTemplate` substitutes each named
placeholder by plain textual replacement and renders every unresolved
variable (absent entry, or null/undefined value) as the empty string;
the self-contained scheduler's `renderBlocks` renders null/undefined
values as the empty string but leaves a placeholder with no entry in
the variable map as the literal placeholder text (in particular, with
an empty variable map it returns its input unchanged). -/
theorem C7_template_rendering (toks : List TemplateTok)
    (vars : List (String × Option String)) (hok : ∀ t ∈ toks, okTok t = true) :
    renderTemplate (assemble toks) vars = renderAll vars toks
    ∧ (∀ s : String, renderBlocksSelf s [] = s) := by
  refine ⟨strEqOfData ?_, fun s => rfl⟩
  exact renderGo_assemble vars toks hok

/-- Witness for C7 on a concrete template with one resolved variable,
one undefined variable and one variable missing from the map. -/
theorem C7_template_rendering_witness :
    renderTemplate (assemble demoToks) demoVars = renderAll demoVars demoToks
    ∧ renderAll demoVars demoToks = "Hi Ada, goal: "
    ∧ renderBlocksSelf "x" [] = "x" :=
  ⟨(C7_template_rendering demoToks demoVars (by decide)).1,
   by apply strEqOfData; decide,
   (C7_template_rendering demoToks demoVars (by decide)).2 "x"⟩

/-! ## Slack signature verification (Response Recorder)

The HMAC-SHA256 primitive is an external collaborator, modelled as an
explicit `hmacHex : key → message → hex digest` parameter.  The shared
`verifySlackSignature` of `_shared/slack.ts` computes
`'v0=' + hex(hmac(secret, 'v0:' + timestamp + ':' + body))` and
compares it to the header — it never examines the timestamp's age.
The self-contained copy in the dashboard `slack-interactions` function
first rejects timestamps more than 300 seconds from the current time. -/

/-- The shared `verifySlackSignature(signingSecret, signature,
timestamp, body)` of `_shared/slack.ts`. -/
def verifySlackSignature (hmacHex : String → String → String)
    (signingSecret signature timestamp body : String) : Bool :=
  ("v0=" ++ hmacHex signingSecret ("v0:" ++ timestamp ++ ":" ++ body)) == signature

/-- The self-contained `verifySlackSignature` of the dashboard
`slack-interactions` deployment: additionally rejects when
`Math.abs(now - parseInt(timestamp)) > 300` (an unparsable timestamp
makes that comparison false in JS, so it falls through to the
signature check). -/
def verifySlackSignatureSelf (hmacHex : String → String → String) (now : Int)
    (signingSecret signature timestamp body : String) : Bool :=
  let ageExceeded :=
    match parseIntJS timestamp.data with
    | some t => decide (300 < (now - t).natAbs)
    | none => false
  if ageExceeded then false
  else verifySlackSignature hmacHex signingSecret signature timestamp body

/-- C4 (failing input): a replayed request 900 seconds old, with the
signature faithfully recorded from the original delivery, passes the
shared `verifySlackSignature` used by `slack-interactions/index.ts` —
the shared verifier never checks the timestamp's age, so the handler
proceeds to mutate state — while the self-contained verifier rejects
the same request.  The claim that a request older than 5 minutes is
always rejected therefore fails on the shared path. -/
theorem C4_replay_window_not_checked :
    verifySlackSignature (fun k m => k ++ m) "sec"
        ("v0=" ++ "sec" ++ "v0:100:payload") "100" "payload" = true
    ∧ verifySlackSignatureSelf (fun k m => k ++ m) 1000 "sec"
        ("v0=" ++ "sec" ++ "v0:100:payload") "100" "payload" = false
    ∧ 300 < ((1000 : Int) - 100).natAbs := by
  refine ⟨?_, ?_, by decide⟩
  · show (("v0=" ++ ("sec" ++ ("v0:" ++ "100" ++ ":" ++ "payload"))) ==
      ("v0=" ++ "sec" ++ "v0:100:payload")) = true
    decide
  · show verifySlackSignatureSelf _ _ _ _ _ _ = false
    unfold verifySlackSignatureSelf
    decide

/-! ## Survey Progression Resolver

`fetchPendingSurvey` (src/lib/dataFetcher.ts) first calls the SQL
function `get_pending_survey` (migration 20260118_native_surveys.sql);
only when that RPC errors or returns no rows does it run the manual
fallback query.  The SQL function reads the `pending_surveys` view —
completed sessions at the milestone ordinals with no linked
`survey_submissions` row — and returns the single row with the
**greatest** session date (`ORDER BY ps.session_date DESC LIMIT 1`),
with `suggested_survey_type` computed by the view's CASE expression.
The manual fallback sorts ascending, walks the sessions oldest-first,
and picks the survey kind from the session's program and the employee's
prior `grow_baseline` submissions.  Dates are modelled as integers
(order is all the SQL uses). -/

/-- The fixed survey milestone ordinals. -/
def milestoneOrdinals : List Int := [1, 3, 6, 12, 18, 24, 30, 36]

/-- A `session_tracking` row (the columns this logic reads). -/
structure SessionTrack where
  id : String
  employee_email : String
  session_date : Int
  appointment_number : Int
  coach_name : Option String
  program_name : Option String
  status : String
deriving DecidableEq

/-- A `survey_submissions` row (the columns this logic reads). -/
structure SurveySubmissionRow where
  id : String
  email : String
  session_id : Option String
  survey_type : Option String
deriving DecidableEq

/-- The record shape returned by both resolver paths. -/
structure PendingSurvey where
  session_id : String
  session_number : Int
  session_date : Int
  coach_name : Option String
  survey_type : Option String
deriving DecidableEq

/-- The view's LEFT JOIN condition: a `survey_submissions` row links
this session when `lower(ss.email) = lower(st.employee_email)` and
`ss.session_id = st.id`. -/
def sessionSurveyed (subs : List SurveySubmissionRow) (st : SessionTrack) : Bool :=
  subs.any (fun ss => ciEq ss.email st.employee_email && ss.session_id == some st.id)

/-- The `pending_surveys` view: completed sessions at milestone
ordinals with no linked submission, ordered by session date
descending. -/
def pendingSurveysView (sessions : List SessionTrack)
    (subs : List SurveySubmissionRow) : List SessionTrack :=
  List.insertionSort (fun a b => b.session_date ≤ a.session_date)
    (sessions.filter (fun st =>
      st.status == "Completed"
      && milestoneOrdinals.contains st.appointment_number
      && !(sessionSurveyed subs st)))

/-- The view's `suggested_survey_type` CASE expression. -/
def suggestedSurveyType (st : SessionTrack) : Option String :=
  if milestoneOrdinals.contains st.appointment_number then some "scale_feedback" else none

/-- The SQL function `get_pending_survey(user_email)`: the view row for
this employee with the greatest session date (`ORDER BY
ps.session_date DESC LIMIT 1`). -/
def get_pending_survey (sessions : List SessionTrack) (subs : List SurveySubmissionRow)
    (user_email : String) : Option PendingSurvey :=
  (List.insertionSort (fun a b => b.session_date ≤ a.session_date)
      ((pendingSurveysView sessions subs).filter
        (fun st => ciEq st.employee_email user_email))).head?
    |>.map (fun st =>
      { session_id := st.id
        session_number := st.appointment_number
        session_date := st.session_date
        coach_name := st.coach_name
        survey_type := suggestedSurveyType st })

/-- `hasCompletedBaselineSurvey(email)` of dataFetcher.ts: any
`survey_submissions` row with this email (case-insensitively) and
`survey_type = 'grow_baseline'`. -/
def hasCompletedBaselineSurvey (subs : List SurveySubmissionRow) (email : String) : Bool :=
  subs.any (fun ss => ciEq ss.email email && ss.survey_type == some "grow_baseline")

/-- The fallback's program test:
`(session.program_name || programType)?.toUpperCase() === 'GROW'`. -/
def growSession (st : SessionTrack) (programType : Option String) : Bool :=
  match jsOrOpt st.program_name programType with
  | some p => strUpper p == "GROW"
  | none => false

/-- The fallback's survey-kind selection: `scale_feedback` by default;
for a GROW session, `grow_baseline` unless a baseline submission is on
file. -/
def fallbackSurveyType (subs : List SurveySubmissionRow) (email : String)
    (st : SessionTrack) (programType : Option String) : String :=
  if growSession st programType then
    if hasCompletedBaselineSurvey subs email then "scale_feedback" else "grow_baseline"
  else "scale_feedback"

/-- The manual fallback of `fetchPendingSurvey`: this employee's
completed milestone sessions ordered by session date **ascending**; the
first one with no linked submission is the obligation. -/
def fallbackPendingSurvey (sessions : List SessionTrack) (subs : List SurveySubmissionRow)
    (email : String) (programType : Option String) : Option PendingSurvey :=
  (List.insertionSort (fun a b => a.session_date ≤ b.session_date)
      (sessions.filter (fun st =>
        ciEq st.employee_email email
        && st.status == "Completed"
        && milestoneOrdinals.contains st.appointment_number))).find?
    (fun st => !(subs.any (fun ss => ciEq ss.email email && ss.session_id == some st.id)))
    |>.map (fun st =>
      { session_id := st.id
        session_number := st.appointment_number
        session_date := st.session_date
        coach_name := some (jsOrStr st.coach_name "Your Coach")
        survey_type := some (fallbackSurveyType subs email st programType) })

/-- `fetchPendingSurvey(email, programType)` of dataFetcher.ts: return
the first RPC row when the RPC succeeds with data, otherwise run the
manual fallback. -/
def fetchPendingSurvey (sessions : List SessionTrack) (subs : List SurveySubmissionRow)
    (email : String) (programType : Option String) (rpcError : Bool) : Option PendingSurvey :=
  if !rpcError then
    match get_pending_survey sessions subs email with
    | some r => some r
    | none => fallbackPendingSurvey sessions subs email programType
  else fallbackPendingSurvey sessions subs email programType

/-- Sessions of the C1 failing input: completed milestone sessions at
ordinals 1, 3 and 6, in chronological order of their dates. -/
def c1Sessions : List SessionTrack :=
  [{ id := "s1", employee_email := "emma@acme.com", session_date := 10,
     appointment_number := 1, coach_name := some "Dana", program_name := none,
     status := "Completed" },
   { id := "s2", employee_email := "emma@acme.com", session_date := 20,
     appointment_number := 3, coach_name := some "Dana", program_name := none,
     status := "Completed" },
   { id := "s3", employee_email := "emma@acme.com", session_date := 30,
     appointment_number := 6, coach_name := some "Dana", program_name := none,
     status := "Completed" }]

/-- Submissions of the C1 failing input: only the ordinal-1 session has
a survey on file. -/
def c1Subs : List SurveySubmissionRow :=
  [{ id := "u1", email := "emma@acme.com", session_id := some "s1",
     survey_type := some "scale_feedback" }]

/-- C1 (failing input): with completed milestone sessions at ordinals
1, 3, 6 and a submission only for ordinal 1, the resolver returns the
obligation for ordinal **6**, not 3: `fetchPendingSurvey` prefers the
`get_pending_survey` RPC, whose SQL orders `session_date DESC`
(newest first), although the function's own comments say it returns
the oldest session so surveys are completed in order — and the manual
fallback, which implements that documented intent, indeed returns
ordinal 3 on the same data. -/
theorem C1_progression_order_bug :
    (fetchPendingSurvey c1Sessions c1Subs "emma@acme.com" none false).map
        (fun r => r.session_number) = some 6
    ∧ (fallbackPendingSurvey c1Sessions c1Subs "emma@acme.com" none).map
        (fun r => r.session_number) = some 3 := by
  decide

/-- Sessions of the C6 counterexample: one completed milestone session
of the GROW program. -/
def c6Sessions : List SessionTrack :=
  [{ id := "g1", employee_email := "lee@acme.com", session_date := 10,
     appointment_number := 1, coach_name := some "Sam", program_name := some "GROW",
     status := "Completed" }]

/-- C6 counterexample: for a GROW-program session of an employee with
no `grow_baseline` submission on file, the resolver (RPC-first path)
reports kind `scale_feedback`, not `grow_baseline` — the view's CASE
expression always yields `scale_feedback` for milestone sessions; only
the manual fallback implements the GROW baseline selection. -/
theorem C6_grow_kind_counterexample :
    (fetchPendingSurvey c6Sessions [] "lee@acme.com" none false).map
        (fun r => r.survey_type) = some (some "scale_feedback")
    ∧ hasCompletedBaselineSurvey [] "lee@acme.com" = false
    ∧ (fallbackPendingSurvey c6Sessions [] "lee@acme.com" none).map
        (fun r => r.survey_type) = some (some "grow_baseline") := by
  decide

/-- Helper: a member of an insertion sort is a member of the original
list. -/
theorem mem_of_mem_insertionSort {α : Type} {r : α → α → Prop} [DecidableRel r]
    {l : List α} {a : α} (h : a ∈ List.insertionSort r l) : a ∈ l :=
  (List.perm_insertionSort r l).mem_iff.mp h

/-- C6 (amended): the RPC path always reports kind `scale_feedback`;
the manual fallback path resolves `scale_feedback` by default, and for
an obligating session whose program resolves to GROW it resolves
`grow_baseline` exactly when the employee has no `grow_baseline`
submission on file, falling back to `scale_feedback` otherwise. -/
theorem C6_survey_kind_selection :
    (∀ (sessions : List SessionTrack) (subs : List SurveySubmissionRow)
        (email : String) (r : PendingSurvey),
      get_pending_survey sessions subs email = some r →
        r.survey_type = some "scale_feedback")
    ∧ (∀ (sessions : List SessionTrack) (subs : List SurveySubmissionRow)
        (email : String) (pt : Option String) (r : PendingSurvey),
      fallbackPendingSurvey sessions subs email pt = some r →
        ∃ st ∈ sessions, r.session_id = st.id ∧
          r.survey_type = some (if growSession st pt && !hasCompletedBaselineSurvey subs email
            then "grow_baseline" else "scale_feedback")) := by
  constructor
  · intro sessions subs email r h
    unfold get_pending_survey at h
    rcases hsl : List.insertionSort (fun a b => b.session_date ≤ a.session_date)
        ((pendingSurveysView sessions subs).filter
          (fun st => ciEq st.employee_email email)) with _ | ⟨st, tl⟩
    · rw [hsl] at h
      simp at h
    · rw [hsl] at h
      simp only [List.head?_cons, Option.map_some'] at h
      have hmem : st ∈ List.insertionSort (fun a b => b.session_date ≤ a.session_date)
          ((pendingSurveysView sessions subs).filter
            (fun st => ciEq st.employee_email email)) := by
        rw [hsl]
        exact List.mem_cons_self _ _
      have hmem2 := List.mem_filter.mp (mem_of_mem_insertionSort hmem)
      have hmem3 := mem_of_mem_insertionSort (l :=
        sessions.filter (fun st =>
          st.status == "Completed"
          && milestoneOrdinals.contains st.appointment_number
          && !(sessionSurveyed subs st))) hmem2.1
      have hpred := (List.mem_filter.mp hmem3).2
      simp only [Bool.and_eq_true] at hpred
      have hms : milestoneOrdinals.contains st.appointment_number = true := hpred.1.2
      have hr := Option.some.inj h
      subst hr
      show suggestedSurveyType st = some "scale_feedback"
      unfold suggestedSurveyType
      rw [if_pos hms]
  · intro sessions subs email pt r h
    unfold fallbackPendingSurvey at h
    rcases hf : (List.insertionSort (fun a b => a.session_date ≤ b.session_date)
        (sessions.filter (fun st =>
          ciEq st.employee_email email
          && st.status == "Completed"
          && milestoneOrdinals.contains st.appointment_number))).find?
        (fun st => !(subs.any (fun ss => ciEq ss.email email && ss.session_id == some st.id)))
      with _ | st
    · rw [hf] at h
      simp at h
    · rw [hf] at h
      simp only [Option.map_some'] at h
      have hmem : st ∈ sessions :=
        (List.mem_filter.mp (mem_of_mem_insertionSort (List.mem_of_find?_eq_some hf))).1
      have hr := Option.some.inj h
      subst hr
      refine ⟨st, hmem, rfl, ?_⟩
      show some (fallbackSurveyType subs email st pt) = _
      unfold fallbackSurveyType
      by_cases hg : growSession st pt = true
        <;> by_cases hb : hasCompletedBaselineSurvey subs email = true
        <;> simp [hg, hb]

/-- Witness for C6 on concrete data: the RPC path reports
`scale_feedback` for the GROW session, and the fallback path emits
`grow_baseline` for the same session since no baseline is on file. -/
theorem C6_survey_kind_selection_witness :
    ({ session_id := "g1", session_number := 1, session_date := 10,
       coach_name := some "Sam",
       survey_type := some "scale_feedback" } : PendingSurvey).survey_type
        = some "scale_feedback"
    ∧ ∃ st ∈ c6Sessions,
        ({ session_id := "g1", session_number := 1, session_date := 10,
           coach_name := some "Sam",
           survey_type := some "grow_baseline" } : PendingSurvey).session_id = st.id ∧
        ({ session_id := "g1", session_number := 1, session_date := 10,
           coach_name := some "Sam",
           survey_type := some "grow_baseline" } : PendingSurvey).survey_type =
          some (if growSession st none && !hasCompletedBaselineSurvey [] "lee@acme.com"
            then "grow_baseline" else "scale_feedback") :=
  ⟨C6_survey_kind_selection.1 c6Sessions [] "lee@acme.com" _ (by decide),
   C6_survey_kind_selection.2 c6Sessions [] "lee@acme.com" none _ (by decide)⟩

/-! ## Nudge scheduler cycle (Eligibility Scanner + Dispatcher)

The nudge-scheduler edge function runs three candidate loops
(action reminders, goal check-ins, session preps).  Tables are lists;
dates are day numbers; the wall clock, the `Intl` hour resolver and the
Slack API are fields of an environment record.  Two database routines
are called by the scheduler but defined only in the database — their
SQL is not among the repository sources — so they are modelled from the
spec (see their doc comments); everything else follows the TypeScript
handler. -/

/-- An `employee_slack_connections` row joined with its installation's
bot token, as the connection-lookup RPC returns it. -/
structure SlackConnection where
  slack_user_id : String
  slack_dm_channel_id : String
  nudge_enabled : Bool
  nudge_frequency : String
  preferred_time : String
  timezone : String
  bot_token : String
deriving DecidableEq

/-- An `action_items` row (also the denormalized candidate shape: the
RPC's `action_id` is the row id). -/
structure ActionItemRow where
  id : String
  email : String
  action_text : String
  due_date : Int
  status : String
  completed_at : Option String
  coach_name : Option String
  first_name : String
deriving DecidableEq

/-- A `session_tracking` row joined (inner) with `employee_manager`
columns, as the scheduler's two session queries select it. -/
structure SessionJoinRow where
  id : String
  company_email : Option String
  first_name : String
  coach_name : Option String
  goals : Option String
  status : String
  session_date : Int
deriving DecidableEq

/-- A `slack_nudges` row. -/
structure NudgeRecord where
  employee_email : String
  nudge_type : String
  reference_id : String
  reference_type : String
  message_ts : String
  channel_id : String
  status : String
  response : Option String
deriving DecidableEq

/-- One delivered Slack message. -/
structure SentMessage where
  bot_token : String
  channel : String
  blocks : String
  text : String
deriving DecidableEq

/-- Modelled from the spec: the `get_employee_slack_connection` RPC is
defined only in the database (its SQL is not among the repository
sources; only callers appear).  Per the spec's Connection Directory
("maps an employee identity (email) to a messaging destination ... and
notification preferences") and Dispatcher step 1 ("Resolve
ConnectionPreference by employee identity. Skip (no error) if
absent."), it returns the employee's connection rows matched by email;
enablement and frequency are returned as data, not filtered here —
those checks are the Dispatcher's own steps. -/
def get_employee_slack_connection (conns : List (String × SlackConnection))
    (lookup_email : String) : List SlackConnection :=
  (conns.filter (fun kv => ciEq kv.1 lookup_email)).map (fun kv => kv.2)

/-- Modelled from the spec: the `get_due_action_items(days_ahead)` RPC
is defined only in the database (its SQL is not among the repository
sources; only callers appear).  Per the spec's Eligibility Scanner
("action items whose due date falls within a forward-looking window (2
days) and whose status is not yet terminal (completed/dismissed)"), it
filters the action-items table by status and due window only; the
dedupe against prior nudges is the Dispatcher's step 4, not the
scanner's. -/
def get_due_action_items (items : List ActionItemRow) (today daysAhead : Int) :
    List ActionItemRow :=
  items.filter (fun a =>
    !(a.status == "completed") && !(a.status == "dismissed")
    && decide (today ≤ a.due_date) && decide (a.due_date ≤ today + daysAhead))

/-- Modelled from the spec: the `record_nudge` RPC is defined only in
the database (its SQL is not among the repository sources; only callers
appear).  Per the spec ("On a successful send ... persist a new
NudgeRecord with status=sent and the handle" and the NudgeRecord
invariant "at most one NudgeRecord per (employee, nudge kind, reference
id)"), it inserts a `sent` row keyed by the lower-cased employee email
and leaves the table unchanged when the dedupe key already exists. -/
def record_nudge (nudges : List NudgeRecord)
    (email ntype ref rtype ts channel : String) : List NudgeRecord :=
  if nudges.any (fun n =>
      ciEq n.employee_email email && n.nudge_type == ntype && n.reference_id == ref) then
    nudges
  else
    nudges ++ [{ employee_email := strLower email, nudge_type := ntype,
                 reference_id := ref, reference_type := rtype, message_ts := ts,
                 channel_id := channel, status := "sent", response := none }]

/-- The handler's dedupe query against `slack_nudges`:
`.eq('employee_email', email.toLowerCase()).eq('nudge_type',
ntype).eq('reference_id', ref)` has a row. -/
def hasNudge (nudges : List NudgeRecord) (email ntype ref : String) : Bool :=
  nudges.any (fun n =>
    n.employee_email == strLower email && n.nudge_type == ntype && n.reference_id == ref)

/-- `formatDueDate` of the scheduler (dates as day numbers; the final
branch's locale-formatted date string is external `toLocaleDateString`
output, modelled as a fixed placeholder since no claim depends on
it). -/
def formatDueDate (today due : Int) : String :=
  if due < today then "*Overdue*"
  else if due == today then "*Today*"
  else if due == today + 1 then "*Tomorrow*"
  else "(date)"

/-- The scheduler's environment: its own clock (day number), the
`Intl`-resolved local hour per timezone (`none` models a thrown
exception), the Slack API outcome and handle, and the portal URL. -/
structure SchedulerEnv where
  today : Int
  localHour : String → Option String
  slackOk : Bool
  slackTs : String
  portalUrl : String

/-- The database state the scheduler reads and writes. -/
structure SchedulerDB where
  templates : List (String × String)
  action_items : List ActionItemRow
  sessions : List SessionJoinRow
  connections : List (String × SlackConnection)
  nudges : List NudgeRecord
deriving DecidableEq

/-- The mutable state threaded through one cycle: the nudge table, the
messages delivered so far, and the result counters. -/
structure CycleState where
  nudges : List NudgeRecord
  sends : List SentMessage
  action_reminders_sent : Nat
  goal_checkins_sent : Nat
  session_preps_sent : Nat
  errors : Nat
deriving DecidableEq

/-- The action-reminder loop body of the scheduler: resolve connection,
check enablement (note: `nudge_frequency` is never consulted), check
the timing gate, resolve the template, render, send, record.  There is
no dedupe check in this branch of the handler. -/
def stepActionReminder (env : SchedulerEnv) (templates : List (String × String))
    (conns : List (String × SlackConnection)) (st : CycleState) (a : ActionItemRow) :
    CycleState :=
  match (get_employee_slack_connection conns a.email).head? with
  | none => st
  | some conn =>
    if !conn.nudge_enabled then st
    else if !(isAppropriateTime conn.preferred_time (env.localHour conn.timezone)) then st
    else
      match templates.find? (fun t => t.1 == "action_reminder") with
      | none => st
      | some tmpl =>
        let blocks := renderTemplate tmpl.2
          [("first_name", some a.first_name),
           ("coach_name", some (jsOrStr a.coach_name "your coach")),
           ("action_text", some a.action_text),
           ("due_date", some (formatDueDate env.today a.due_date)),
           ("action_id", some a.id)]
        let msg : SentMessage :=
          { bot_token := conn.bot_token, channel := conn.slack_dm_channel_id,
            blocks := blocks, text := "Reminder: " ++ a.action_text }
        if env.slackOk then
          { st with
            nudges := record_nudge st.nudges a.email "action_reminder" a.id
              "action_item" env.slackTs conn.slack_dm_channel_id,
            sends := st.sends ++ [msg],
            action_reminders_sent := st.action_reminders_sent + 1 }
        else { st with errors := st.errors + 1 }

/-- The goal-check-in loop body: email truthiness, dedupe against
`slack_nudges`, connection, enablement, timing gate, template, send,
record.  (The delivered text has its apostrophe elided.) -/
def stepGoalCheckin (env : SchedulerEnv) (templates : List (String × String))
    (conns : List (String × SlackConnection)) (st : CycleState) (s : SessionJoinRow) :
    CycleState :=
  match s.company_email with
  | none => st
  | some email =>
    if email = "" then st
    else if hasNudge st.nudges email "goal_checkin" s.id then st
    else
      match (get_employee_slack_connection conns email).head? with
      | none => st
      | some conn =>
        if !conn.nudge_enabled then st
        else if !(isAppropriateTime conn.preferred_time (env.localHour conn.timezone)) then st
        else
          match templates.find? (fun t => t.1 == "goal_checkin") with
          | none => st
          | some tmpl =>
            let blocks := renderTemplate tmpl.2
              [("first_name", some s.first_name),
               ("coach_name", some (jsOrStr s.coach_name "your coach")),
               ("goals", s.goals),
               ("session_id", some s.id)]
            let msg : SentMessage :=
              { bot_token := conn.bot_token, channel := conn.slack_dm_channel_id,
                blocks := blocks, text := "Hows progress on your coaching goals?" }
            if env.slackOk then
              { st with
                nudges := record_nudge st.nudges email "goal_checkin" s.id
                  "session" env.slackTs conn.slack_dm_channel_id,
                sends := st.sends ++ [msg],
                goal_checkins_sent := st.goal_checkins_sent + 1 }
            else { st with errors := st.errors + 1 }

/-- The session-prep loop body: email truthiness, dedupe, connection,
enablement, timing gate, template, send, record. -/
def stepSessionPrep (env : SchedulerEnv) (templates : List (String × String))
    (conns : List (String × SlackConnection)) (st : CycleState) (s : SessionJoinRow) :
    CycleState :=
  match s.company_email with
  | none => st
  | some email =>
    if email = "" then st
    else if hasNudge st.nudges email "session_prep" s.id then st
    else
      match (get_employee_slack_connection conns email).head? with
      | none => st
      | some conn =>
        if !conn.nudge_enabled then st
        else if !(isAppropriateTime conn.preferred_time (env.localHour conn.timezone)) then st
        else
          match templates.find? (fun t => t.1 == "session_prep") with
          | none => st
          | some tmpl =>
            let blocks := renderTemplate tmpl.2
              [("first_name", some s.first_name),
               ("coach_name", some (jsOrStr s.coach_name "your coach")),
               ("session_id", some s.id),
               ("portal_url", some env.portalUrl)]
            let msg : SentMessage :=
              { bot_token := conn.bot_token, channel := conn.slack_dm_channel_id,
                blocks := blocks, text := "You have a coaching session tomorrow!" }
            if env.slackOk then
              { st with
                nudges := record_nudge st.nudges email "session_prep" s.id
                  "session" env.slackTs conn.slack_dm_channel_id,
                sends := st.sends ++ [msg],
                session_preps_sent := st.session_preps_sent + 1 }
            else { st with errors := st.errors + 1 }

/-- The scheduler's goal-check-in query: completed sessions dated 3-4
days back with a non-null goals field. -/
def goalCheckinCandidates (sessions : List SessionJoinRow) (today : Int) :
    List SessionJoinRow :=
  sessions.filter (fun s =>
    s.status == "Completed"
    && decide (today - 4 ≤ s.session_date) && decide (s.session_date ≤ today - 3)
    && !(s.goals == none))

/-- The scheduler's session-prep query: upcoming sessions dated
tomorrow (scheduler clock). -/
def sessionPrepCandidates (sessions : List SessionJoinRow) (today : Int) :
    List SessionJoinRow :=
  sessions.filter (fun s => s.status == "Upcoming" && s.session_date == today + 1)

/-- One full scheduler cycle: the three candidate loops in handler
order, threading the nudge table and counters. -/
def runCycle (env : SchedulerEnv) (db : SchedulerDB) : CycleState :=
  let st0 : CycleState :=
    { nudges := db.nudges, sends := [], action_reminders_sent := 0,
      goal_checkins_sent := 0, session_preps_sent := 0, errors := 0 }
  let st1 := (get_due_action_items db.action_items env.today 2).foldl
    (stepActionReminder env db.templates db.connections) st0
  let st2 := (goalCheckinCandidates db.sessions env.today).foldl
    (stepGoalCheckin env db.templates db.connections) st1
  (sessionPrepCandidates db.sessions env.today).foldl
    (stepSessionPrep env db.templates db.connections) st2

/-- The concrete environment of the C2/C3 runs: day 100, every timezone
resolving to local hour 14, Slack delivering successfully. -/
def nudgeEnv : SchedulerEnv :=
  { today := 100, localHour := fun _ => some "14", slackOk := true,
    slackTs := "111.222", portalUrl := "https://portal.example" }

/-- The C2 connection: nudges enabled but frequency mode `none`. -/
def c2ConnNone : SlackConnection :=
  { slack_user_id := "U1", slack_dm_channel_id := "D1", nudge_enabled := true,
    nudge_frequency := "none", preferred_time := "14:00", timezone := "Z",
    bot_token := "xoxb" }

/-- The same connection with the enabled flag cleared. -/
def c2ConnDisabled : SlackConnection :=
  { c2ConnNone with nudge_enabled := false }

/-- One action item due tomorrow for the C2/C3 employee. -/
def c2Action : ActionItemRow :=
  { id := "a1", email := "noel@acme.com", action_text := "Draft plan",
    due_date := 101, status := "pending", completed_at := none,
    coach_name := some "Dana", first_name := "Noel" }

/-- The C2 database: a due action item, a frequency-`none` (but
enabled) connection, and a default action-reminder template. -/
def c2Db : SchedulerDB :=
  { templates := [("action_reminder", "B")], action_items := [c2Action],
    sessions := [], connections := [("noel@acme.com", c2ConnNone)], nudges := [] }

/-- C2 (failing input): a candidate whose connection has
`nudge_frequency = 'none'` and `nudge_enabled = true` still produces a
send — the handler checks only `nudge_enabled` and never reads the
frequency mode — while the same candidate with `nudge_enabled = false`
is suppressed.  The claimed invariant "frequency mode `none` suppresses
all sends" fails on the code. -/
theorem C2_frequency_none_not_suppressed :
    (runCycle nudgeEnv c2Db).sends.length = 1
    ∧ c2ConnNone.nudge_frequency = "none"
    ∧ c2ConnNone.nudge_enabled = true
    ∧ (runCycle nudgeEnv
        { c2Db with connections := [("noel@acme.com", c2ConnDisabled)] }).sends.length = 0 := by
  decide

/-- A completed session 3 days back with goals, for the C3 contrast
between the deduped and the non-deduped loops. -/
def c3Session : SessionJoinRow :=
  { id := "gs1", company_email := some "noel@acme.com", first_name := "Noel",
    coach_name := some "Dana", goals := some "Ship it", status := "Completed",
    session_date := 97 }

/-- The C3 database: one due action item and one goal-check-in
candidate for an enabled smart-frequency connection. -/
def c3Db : SchedulerDB :=
  { templates := [("action_reminder", "B"), ("goal_checkin", "C")],
    action_items := [c2Action], sessions := [c3Session],
    connections := [("noel@acme.com", { c2ConnNone with nudge_frequency := "smart" })],
    nudges := [] }

/-- The database state after the first C3 cycle. -/
def c3DbAfter : SchedulerDB :=
  { c3Db with nudges := (runCycle nudgeEnv c3Db).nudges }

/-- C3 (failing input): over unchanged underlying data, the first cycle
sends an action reminder and a goal check-in; the second cycle sends
the action reminder **again** — the action-reminder branch of the
handler performs no dedupe check against `slack_nudges` — while the
goal check-in is correctly deduped.  The `slack_nudges` table still
holds a single row for the action reminder's dedupe key (the recording
routine upserts), but the claim that the second run sends zero messages
for anything the first run sent fails on the code. -/
theorem C3_second_cycle_resends_action_reminder :
    (runCycle nudgeEnv c3Db).action_reminders_sent = 1
    ∧ (runCycle nudgeEnv c3Db).goal_checkins_sent = 1
    ∧ (runCycle nudgeEnv c3Db).sends.length = 2
    ∧ (runCycle nudgeEnv c3DbAfter).action_reminders_sent = 1
    ∧ (runCycle nudgeEnv c3DbAfter).goal_checkins_sent = 0
    ∧ (runCycle nudgeEnv c3DbAfter).sends.length = 1
    ∧ ((runCycle nudgeEnv c3DbAfter).nudges.filter (fun n =>
        n.employee_email == "noel@acme.com" && n.nudge_type == "action_reminder"
        && n.reference_id == "a1")).length = 1 := by
  decide

/-! ## Response Recorder (slack-interactions)

The interactions handler recovers the clicked entity id from the
button's block id — `blockId.split('_')[1]` — and, for `action_done`,
updates the `action_items` row to `status = 'completed'` with a fresh
`completed_at` timestamp. -/

/-- The handler's reference-id recovery:
`const referenceId = blockId.split('_')[1]` (absent when the block id
has no second chunk). -/
def extractReferenceId (blockId : String) : Option String :=
  ((jsSplit '_' blockId.data).get? 1).map (fun l => (⟨l⟩ : String))

/-- The `action_done` row update: `status = 'completed'`,
`completed_at = now`, every other column untouched. -/
def completeRow (now : String) (it : ActionItemRow) : ActionItemRow :=
  { it with status := "completed", completed_at := some now }

/-- Helper: completing a row keeps its id. -/
theorem completeRow_id (now : String) (it : ActionItemRow) :
    (completeRow now it).id = it.id := rfl

/-- Helper: a completed row reads status `completed`. -/
theorem completeRow_status (now : String) (it : ActionItemRow) :
    (completeRow now it).status = "completed" := rfl

/-- The `action_done` mutation: set every `action_items` row with the
referenced id to `status = 'completed'` with `completed_at = now`. -/
def markActionDone (items : List ActionItemRow) (refId now : String) :
    List ActionItemRow :=
  items.map (fun it => if it.id == refId then completeRow now it else it)

/-- The `action_done` branch of the handler: extract the reference id
from the block id and apply the completion update (when the id is
absent, the update matches no row). -/
def actionDoneEffect (items : List ActionItemRow) (blockId now : String) :
    List ActionItemRow :=
  match extractReferenceId blockId with
  | some rid => markActionDone items rid now
  | none => items

/-- Status of the first `action_items` row with this id. -/
def statusOf (items : List ActionItemRow) (refId : String) : Option String :=
  (items.find? (fun it => it.id == refId)).map (fun it => it.status)

/-- Helper: the completion update changes no row's id, so the
row-with-this-id test is unaffected. -/
theorem completeIf_id_check (r t : String) :
    ((fun it : ActionItemRow => it.id == r) ∘
        (fun it => if it.id == r then completeRow t it else it))
      = (fun it : ActionItemRow => it.id == r) := by
  funext a
  by_cases ha : a.id = r <;> simp [ha, completeRow]

/-- Helper: the completion update leaves every row id in place. -/
theorem markActionDone_any (items : List ActionItemRow) (r t : String) :
    (markActionDone items r t).any (fun it => it.id == r)
      = items.any (fun it => it.id == r) := by
  unfold markActionDone
  rw [List.any_map, completeIf_id_check]

/-- Helper: after the completion update, the referenced row (when
present) reads `completed`. -/
theorem statusOf_markActionDone (items : List ActionItemRow) (r t : String)
    (h : items.any (fun it => it.id == r) = true) :
    statusOf (markActionDone items r t) r = some "completed" := by
  unfold statusOf markActionDone
  rw [List.find?_map, completeIf_id_check]
  rcases hf : List.find? (fun it => it.id == r) items with _ | a
  · rcases List.any_eq_true.mp h with ⟨x, hx, hpx⟩
    have := List.find?_eq_none.mp hf x hx
    simp [hpx] at this
  · have hpa := List.find?_some hf
    simp only [beq_iff_eq] at hpa
    rw [hf]
    simp [hpa, completeRow]

/-- Helper: applying the completion update twice changes no row's id or
status relative to applying it once. -/
theorem markActionDone_twice_proj (items : List ActionItemRow) (r t1 t2 : String) :
    (markActionDone (markActionDone items r t1) r t2).map (fun it => (it.id, it.status))
      = (markActionDone items r t1).map (fun it => (it.id, it.status)) := by
  unfold markActionDone
  rw [List.map_map, List.map_map, List.map_map]
  refine List.map_congr_left (fun a _ => ?_)
  by_cases ha : a.id = r <;> simp [ha, completeRow]

/-- C8: delivering the same `action_done` callback twice (same block
id, hence same recovered reference id) leaves the referenced action
item with status `completed` after either one or two deliveries; the
second delivery applies the same set-to-completed mutation — no row's
id or status changes relative to the first delivery, and the table
never gains or loses a row (no second distinct completion). -/
theorem C8_action_done_idempotent (items : List ActionItemRow)
    (blockId rid t1 t2 : String) (hx : extractReferenceId blockId = some rid)
    (h : items.any (fun it => it.id == rid) = true) :
    statusOf (actionDoneEffect items blockId t1) rid = some "completed"
    ∧ statusOf (actionDoneEffect (actionDoneEffect items blockId t1) blockId t2) rid
        = some "completed"
    ∧ (actionDoneEffect (actionDoneEffect items blockId t1) blockId t2).map
        (fun it => (it.id, it.status))
      = (actionDoneEffect items blockId t1).map (fun it => (it.id, it.status))
    ∧ (actionDoneEffect (actionDoneEffect items blockId t1) blockId t2).length
        = items.length := by
  have he : ∀ (xs : List ActionItemRow) (t : String),
      actionDoneEffect xs blockId t = markActionDone xs rid t := by
    intro xs t
    unfold actionDoneEffect
    rw [hx]
  simp only [he]
  refine ⟨statusOf_markActionDone items rid t1 h, ?_, ?_, ?_⟩
  · refine statusOf_markActionDone _ rid t2 ?_
    rw [markActionDone_any]
    exact h
  · exact markActionDone_twice_proj items rid t1 t2
  · simp [markActionDone]

/-- The action-items table of the C8 witness. -/
def c8Items : List ActionItemRow :=
  [{ id := "a1", email := "noel@acme.com", action_text := "Draft plan",
     due_date := 101, status := "pending", completed_at := none,
     coach_name := some "Dana", first_name := "Noel" }]

/-- Witness for C8 at a concrete table and block id `action_a1`. -/
theorem C8_action_done_idempotent_witness :
    statusOf (actionDoneEffect c8Items "action_a1" "t1") "a1" = some "completed"
    ∧ statusOf (actionDoneEffect (actionDoneEffect c8Items "action_a1" "t1")
        "action_a1" "t2") "a1" = some "completed"
    ∧ (actionDoneEffect (actionDoneEffect c8Items "action_a1" "t1") "action_a1" "t2").map
        (fun it => (it.id, it.status))
      = (actionDoneEffect c8Items "action_a1" "t1").map (fun it => (it.id, it.status))
    ∧ (actionDoneEffect (actionDoneEffect c8Items "action_a1" "t1") "action_a1" "t2").length
        = c8Items.length :=
  C8_action_done_idempotent c8Items "action_a1" "a1" "t1" "t2" (by decide) (by decide)

/-- Helper: one-step unfolding of the split scanner. -/
theorem jsSplit_cons (sep c : Char) (rest : List Char) :
    jsSplit sep (c :: rest) =
      if c = sep then [] :: jsSplit sep rest
      else
        match jsSplit sep rest with
        | [] => [[c]]
        | chunk :: more => (c :: chunk) :: more := rfl

/-- Helper: a split result is never the empty list. -/
theorem jsSplit_ne_nil (sep : Char) : ∀ l : List Char, jsSplit sep l ≠ [] := by
  intro l
  induction l with
  | nil => simp [jsSplit]
  | cons c rest ih =>
    rw [jsSplit_cons]
    by_cases hc : c = sep
    · simp [hc]
    · rw [if_neg hc]
      rcases hr : jsSplit sep rest with _ | ⟨chunk, more⟩
      · simp
      · simp

/-- Helper: the first chunk of a split is the separator-free prefix. -/
theorem jsSplit_head (sep : Char) : ∀ l : List Char,
    (jsSplit sep l).head? = some (l.takeWhile (fun c => !(c == sep))) := by
  intro l
  induction l with
  | nil => rfl
  | cons c rest ih =>
    rw [jsSplit_cons]
    by_cases hc : c = sep
    · simp [hc, List.takeWhile_cons]
    · rw [if_neg hc]
      rcases hr : jsSplit sep rest with _ | ⟨chunk, more⟩
      · exact absurd hr (jsSplit_ne_nil sep rest)
      · rw [hr] at ih
        simp only [List.head?_cons, Option.some.injEq] at ih
        simp [List.takeWhile_cons, hc, ih]

/-- Helper: splitting a separator-free prefix followed by the separator
emits that prefix as the first chunk. -/
theorem jsSplit_append_sep (sep : Char) :
    ∀ (pre suf : List Char), (∀ c ∈ pre, ¬c = sep) →
      jsSplit sep (pre ++ sep :: suf) = pre :: jsSplit sep suf := by
  intro pre
  induction pre with
  | nil =>
    intro suf _
    show jsSplit sep (sep :: suf) = [] :: jsSplit sep suf
    rw [jsSplit_cons, if_pos rfl]
  | cons c t ih =>
    intro suf h
    show jsSplit sep (c :: (t ++ sep :: suf)) = (c :: t) :: jsSplit sep suf
    rw [jsSplit_cons, if_neg (h c (List.mem_cons_self c t)),
      ih suf (fun x hx => h x (List.mem_cons_of_mem c hx))]

/-- C10: the Response Recorder recovers the referenced entity id by
`blockId.split('_')[1]`: for every block id `action_<id>`, the
recovered id is the portion of `<id>` before its first underscore, so
whenever `<id>` itself contains an underscore the recovered id differs
from `<id>` and the `action_done` update targets a different (or
nonexistent) row. -/
theorem C10_reference_id_truncated_at_underscore (id : List Char) :
    extractReferenceId ⟨"action_".data ++ id⟩
      = some ⟨id.takeWhile (fun c => !(c == '_'))⟩
    ∧ ('_' ∈ id → ¬extractReferenceId ⟨"action_".data ++ id⟩ = some ⟨id⟩) := by
  have hpre : ∀ c ∈ "action".data, ¬c = '_' := by decide
  have hsplit : jsSplit '_' ("action_".data ++ id) = "action".data :: jsSplit '_' id := by
    show jsSplit '_' ("action".data ++ '_' :: id) = _
    exact jsSplit_append_sep '_' "action".data id hpre
  have hx : extractReferenceId ⟨"action_".data ++ id⟩
      = some ⟨id.takeWhile (fun c => !(c == '_'))⟩ := by
    unfold extractReferenceId
    rw [show (⟨"action_".data ++ id⟩ : String).data = "action_".data ++ id from rfl,
      hsplit]
    have hh := jsSplit_head '_' id
    rcases hj : jsSplit '_' id with _ | ⟨chunk, more⟩
    · exact absurd hj (jsSplit_ne_nil '_' id)
    · rw [hj] at hh
      simp only [List.head?_cons, Option.some.injEq] at hh
      simp [hh]
  refine ⟨hx, ?_⟩
  intro hmem heq
  rw [hx] at heq
  have hdata : id.takeWhile (fun c => !(c == '_')) = id :=
    congrArg String.data (Option.some.inj heq)
  have := List.mem_takeWhile_imp (hdata ▸ hmem)
  simp at this

/-- Witness for C10 at block id `action_abc_def`: the recovered id is
`abc`, not `abc_def`. -/
theorem C10_reference_id_truncated_witness :
    extractReferenceId "action_abc_def" = some "abc"
    ∧ ¬extractReferenceId "action_abc_def" = some "abc_def" :=
  ⟨(C10_reference_id_truncated_at_underscore "abc_def".data).1,
   (C10_reference_id_truncated_at_underscore "abc_def".data).2 (by decide)⟩

end Boon
